import Mathlib

/-!
Verification of the facial-expression authentication decision engine
(backend/app/utils/face_processing.py and backend/app/api/facial_routes.py).

The Python module dispatches at runtime on a DEEPFACE_AVAILABLE flag; we
embed the two branches of each function as two Lean functions, suffixed
_sim (simulated branch, the pure-embedding path) and _df (DeepFace branch,
the identity-verify path).  Floating point numbers are modelled as
rationals; Python dict lookups with defaults become Option.getD; fallible
external steps (file resolution, the DeepFace verify call) become Except
inputs so that the try/except structure of the source is explicit.
-/

namespace FacialAuth

/-- A face observation as the dicts passed around by the Python code:
faceEncoding (possibly empty when absent), dominantEmotion (absent keys
read through dict.get), and an emotionScores association list. -/
structure FaceObservation where
  faceEncoding : List ℚ
  dominantEmotion : Option String
  emotionScores : List (String × ℚ)
deriving Repr, DecidableEq

/-- Flask config entries read by the engine, with the defaults of
current_app.config.get at face_processing.py lines 232 and 398 and the
values in app/config/settings.py. -/
structure AppConfig where
  facialAuthThreshold : ℚ := 6/10
  facialEmotionWeight : ℚ := 3/10
deriving Repr, DecidableEq

/-- Python dict update m[k] = v: overwrite the entry when the key is
present, append it otherwise. -/
def dictSet (m : List (String × ℚ)) (k : String) (v : ℚ) : List (String × ℚ) :=
  if m.any (fun p => p.1 == k) then
    m.map (fun p => if p.1 == k then (k, v) else p)
  else m ++ [(k, v)]

/-- The loop at face_processing.py lines 380-382: sum of absolute
coordinate differences over the common prefix of the two encodings
(the Python loop runs over range(min(len, len))). -/
def l1Sum : List ℚ → List ℚ → ℚ
  | a :: as, b :: bs => |a - b| + l1Sum as bs
  | _, _ => 0

/-- face_processing.py line 386: similarity derived from the summed
absolute differences, clamped below at 0. -/
def faceSimilaritySim (storedEncoding currentEncoding : List ℚ) : ℚ :=
  max 0 (1 - l1Sum storedEncoding currentEncoding / 128)

/-- compare_facial_expressions, simulated branch
(face_processing.py lines 365-404): reject on empty encodings, otherwise
blend the L1-based similarity with the expression-match score using the
configured emotion weight and compare against the threshold (the
threshold argument defaults to the config value, line 231-232). -/
def compare_facial_expressions_sim (cfg : AppConfig)
    (stored_data current_data : FaceObservation) (threshold? : Option ℚ) :
    Bool × ℚ :=
  let threshold := threshold?.getD cfg.facialAuthThreshold
  let stored_encoding := stored_data.faceEncoding
  let current_encoding := current_data.faceEncoding
  if stored_encoding = [] ∨ current_encoding = [] then (false, 0)
  else
    let face_similarity := faceSimilaritySim stored_encoding current_encoding
    let stored_emotion := stored_data.dominantEmotion.getD "unknown"
    let current_emotion := current_data.dominantEmotion.getD "unknown"
    let emotion_match := stored_emotion = current_emotion
    let emotion_score : ℚ := if emotion_match then 1 else 0
    let emotion_weight := cfg.facialEmotionWeight
    let confidence := (1 - emotion_weight) * face_similarity + emotion_weight * emotion_score
    (decide (confidence ≥ threshold), confidence)

/-- Result dict of the DeepFace.verify call, read through dict.get with
defaults False and 1.0 (face_processing.py lines 317-320). -/
structure VerifyResult where
  verified : Option Bool
  distance : Option ℚ
deriving Repr, DecidableEq

/-- The ways the DeepFace branch can fail before reaching the decision
logic: the image-path resolution block (lines 255-299, every early return
there yields (False, 0.0)) and exceptions of the verify call or of the
surrounding code, caught at lines 350-352 and 362-364. -/
inductive CompareFailure
  | imageResolutionFailed
  | verifyRaised
deriving Repr, DecidableEq

/-- compare_facial_expressions, DeepFace branch
(face_processing.py lines 234-364): the verify step either fails (every
failure is caught and becomes (False, 0.0)) or yields a VerifyResult,
which is combined with the expression match by the three-path policy of
lines 324-348. -/
def compare_facial_expressions_df (stored_data current_data : FaceObservation)
    (verifyStep : Except CompareFailure VerifyResult) : Bool × ℚ :=
  let stored_emotion := stored_data.dominantEmotion.getD "unknown"
  let current_emotion := current_data.dominantEmotion.getD "unknown"
  let emotion_match := stored_emotion = current_emotion
  match verifyStep with
  | .error _ => (false, 0)
  | .ok verify_result =>
    let face_verified := verify_result.verified.getD false
    let face_distance := verify_result.distance.getD 1
    let face_similarity := 1 - min face_distance 1
    if face_verified ∧ emotion_match then
      (true, 8/10 * face_similarity + 2/10)
    else if face_verified ∧ ¬ emotion_match then
      (false, 0)
    else if emotion_match ∧ face_distance < 6/10 then
      (true, max 0 (1 - face_distance))
    else
      (false, 0)

/-- The expression-match score of the simulated branch: 1.0 when the two
dominant emotions (read with default label unknown) coincide, else 0.0
(face_processing.py lines 388-394). -/
def expressionScore (stored_data current_data : FaceObservation) : ℚ :=
  if stored_data.dominantEmotion.getD "unknown" = current_data.dominantEmotion.getD "unknown"
  then 1 else 0

/-- The blended confidence of the simulated branch
(face_processing.py line 399). -/
def blendedConfidence (cfg : AppConfig) (stored_data current_data : FaceObservation) : ℚ :=
  (1 - cfg.facialEmotionWeight) *
      faceSimilaritySim stored_data.faceEncoding current_data.faceEncoding +
    cfg.facialEmotionWeight * expressionScore stored_data current_data

/-- Concrete observations used by the witnesses below. -/
def obsHappyOne : FaceObservation := ⟨[1], some "happy", [("happy", 9/10)]⟩

def obsHappyNegOne : FaceObservation := ⟨[-1], some "happy", [("happy", 9/10)]⟩

def obsSadOne : FaceObservation := ⟨[1], some "sad", [("sad", 9/10)]⟩

def obsNoEncoding : FaceObservation := ⟨[], some "happy", [("happy", 9/10)]⟩

/-- Claim C1: in the pure-embedding (simulated) path, for observations with
non-empty face encodings the returned confidence is the blend
(1 - expressionWeight) * faceSimilarity + expressionWeight * (1 or 0 by
expression equality), matched holds exactly when confidence is at least the
threshold, and a confidence exactly equal to the threshold is matched
(inclusive boundary). -/
theorem blended_path_formula_and_inclusive_threshold
    (cfg : AppConfig) (stored_data current_data : FaceObservation) (threshold? : Option ℚ)
    (hs : stored_data.faceEncoding ≠ []) (hc : current_data.faceEncoding ≠ []) :
    compare_facial_expressions_sim cfg stored_data current_data threshold? =
      (decide (blendedConfidence cfg stored_data current_data ≥
         threshold?.getD cfg.facialAuthThreshold),
       blendedConfidence cfg stored_data current_data) ∧
    (blendedConfidence cfg stored_data current_data = threshold?.getD cfg.facialAuthThreshold →
      (compare_facial_expressions_sim cfg stored_data current_data threshold?).1 = true) := by
  have hmain :
      compare_facial_expressions_sim cfg stored_data current_data threshold? =
        (decide (blendedConfidence cfg stored_data current_data ≥
           threshold?.getD cfg.facialAuthThreshold),
         blendedConfidence cfg stored_data current_data) := by
    unfold compare_facial_expressions_sim
    rw [if_neg (by simp [hs, hc])]
    simp [blendedConfidence, expressionScore]
  refine ⟨hmain, fun hb => ?_⟩
  rw [hmain]
  simp [hb]

/-- Witness for C1 at a concrete input (encodings [1] and [-1], both
expressions happy, default configuration): similarity 63/64, confidence
7/10 * 63/64 + 3/10 = 633/640, above the 0.6 threshold. -/
theorem blended_path_formula_witness :
    obsHappyOne.faceEncoding ≠ [] ∧ obsHappyNegOne.faceEncoding ≠ [] ∧
    compare_facial_expressions_sim {} obsHappyOne obsHappyNegOne none = (true, 633/640) := by
  refine ⟨by simp [obsHappyOne], by simp [obsHappyNegOne], ?_⟩
  have h := blended_path_formula_and_inclusive_threshold {} obsHappyOne obsHappyNegOne none
    (by simp [obsHappyOne]) (by simp [obsHappyNegOne])
  rw [h.1]
  norm_num [blendedConfidence, expressionScore, faceSimilaritySim, l1Sum,
    obsHappyOne, obsHappyNegOne]

/-- Claim C2: on the identity-verified path, whenever the verify step
reports verified but the dominant expressions differ, the result is
(false, 0.0) for every reported distance — expression mismatch is a hard
veto. -/
theorem identity_path_expression_veto
    (stored_data current_data : FaceObservation) (verify_result : VerifyResult)
    (hv : verify_result.verified.getD false = true)
    (he : stored_data.dominantEmotion.getD "unknown" ≠
      current_data.dominantEmotion.getD "unknown") :
    compare_facial_expressions_df stored_data current_data (.ok verify_result) = (false, 0) := by
  unfold compare_facial_expressions_df
  simp [hv, he]

/-- Witness for C2: verified with distance 0 (perfect face similarity) but
happy against sad still yields (false, 0.0). -/
theorem identity_path_expression_veto_witness :
    (VerifyResult.mk (some true) (some 0)).verified.getD false = true ∧
    obsHappyOne.dominantEmotion.getD "unknown" ≠ obsSadOne.dominantEmotion.getD "unknown" ∧
    compare_facial_expressions_df obsHappyOne obsSadOne
      (.ok (VerifyResult.mk (some true) (some 0))) = (false, 0) := by
  refine ⟨rfl, by simp [obsHappyOne, obsSadOne], ?_⟩
  exact identity_path_expression_veto obsHappyOne obsSadOne (VerifyResult.mk (some true) (some 0))
    rfl (by simp [obsHappyOne, obsSadOne])

/-- Claim C5: on the fallback path (verify step ran but did not report
verified), matching expressions together with a distance strictly below
the 0.6 leniency threshold give (true, max 0 (1 - distance)); differing
expressions or a distance at or above 0.6 give (false, 0.0). -/
theorem fallback_path_policy
    (stored_data current_data : FaceObservation) (verify_result : VerifyResult)
    (hv : verify_result.verified.getD false = false) :
    (stored_data.dominantEmotion.getD "unknown" =
        current_data.dominantEmotion.getD "unknown" ∧
      verify_result.distance.getD 1 < 6/10 →
      compare_facial_expressions_df stored_data current_data (.ok verify_result) =
        (true, max 0 (1 - verify_result.distance.getD 1))) ∧
    (stored_data.dominantEmotion.getD "unknown" ≠
        current_data.dominantEmotion.getD "unknown" ∨
      verify_result.distance.getD 1 ≥ 6/10 →
      compare_facial_expressions_df stored_data current_data (.ok verify_result) =
        (false, 0)) := by
  constructor
  · rintro ⟨he, hd⟩
    unfold compare_facial_expressions_df
    simp [hv, he, hd]
  · intro h
    unfold compare_facial_expressions_df
    rcases h with he | hd
    · simp [hv, he]
    · simp [hv, not_lt.mpr hd]

/-- Witness for C5: not verified, matching happy expressions, distance
1/2 < 0.6 gives (true, 1/2); not verified, happy against sad gives
(false, 0.0). -/
theorem fallback_path_policy_witness :
    (VerifyResult.mk (some false) (some (1/2))).verified.getD false = false ∧
    compare_facial_expressions_df obsHappyOne obsHappyNegOne
      (.ok (VerifyResult.mk (some false) (some (1/2)))) = (true, 1/2) ∧
    compare_facial_expressions_df obsHappyOne obsSadOne
      (.ok (VerifyResult.mk (some false) (some (1/2)))) = (false, 0) := by
  refine ⟨rfl, ?_, ?_⟩
  · have h := (fallback_path_policy obsHappyOne obsHappyNegOne
      (VerifyResult.mk (some false) (some (1/2))) rfl).1
      ⟨by simp [obsHappyOne, obsHappyNegOne], by norm_num⟩
    rw [h]
    norm_num
  · exact (fallback_path_policy obsHappyOne obsSadOne
      (VerifyResult.mk (some false) (some (1/2))) rfl).2
      (Or.inl (by simp [obsHappyOne, obsSadOne]))

/-- Claim C7: the comparison operation never propagates an internal
failure: it is a total function, and every failing internal step — the
image-path resolution block and any exception of the verify call, both of
which the source catches — produces the defined negative outcome
(false, 0.0). -/
theorem internal_failure_yields_negative_outcome
    (stored_data current_data : FaceObservation) (failure : CompareFailure) :
    compare_facial_expressions_df stored_data current_data (.error failure) = (false, 0) := by
  unfold compare_facial_expressions_df
  simp

/-- Claim C8: when either face encoding is empty (or the key is absent,
which the source reads as an empty list), the simulated comparison returns
the defined zero-confidence result (false, 0.0); being a total function it
cannot throw. -/
theorem empty_encoding_rejected
    (cfg : AppConfig) (stored_data current_data : FaceObservation) (threshold? : Option ℚ)
    (h : stored_data.faceEncoding = [] ∨ current_data.faceEncoding = []) :
    compare_facial_expressions_sim cfg stored_data current_data threshold? = (false, 0) := by
  unfold compare_facial_expressions_sim
  rw [if_pos h]

/-- Witness for C8: an observation with an empty encoding against a normal
one yields (false, 0.0). -/
theorem empty_encoding_rejected_witness :
    (obsNoEncoding.faceEncoding = [] ∨ obsHappyOne.faceEncoding = []) ∧
    compare_facial_expressions_sim {} obsNoEncoding obsHappyOne none = (false, 0) := by
  refine ⟨Or.inl rfl, ?_⟩
  exact empty_encoding_rejected {} obsNoEncoding obsHappyOne none (Or.inl rfl)

/-! Route layer (backend/app/api/facial_routes.py).  The two verification
endpoints are embedded as functions of the request-relevant state: the
stored FacialData record (None when the user has no enrollment), the
result of process_image_base64 on the probe image (None when no face was
detected), and — for verify_facial — the fresh encoding the time-seeded
fallback generator would produce.  The comparison operation is passed as a
parameter, matching the call compare_facial_expressions(stored, current);
each route returns its HTTP outcome together with the stored record as it
stands after the request (neither route writes it). -/

/-- Error responses of the two verification routes. -/
inductive RouteError
  | missingImageData
  | userNotFound
  | noFacialData
  | couldNotDetectFace
deriving Repr, DecidableEq

/-- The JSON body returned on a successful verification call. -/
structure VerifyResponse where
  matched : Bool
  confidence : ℚ
  storedEmotion : Option String
  detectedEmotion : Option String
deriving Repr, DecidableEq

/-- A FacialData row as the routes read it: the expression column, the
parsed facial_data JSON, and the optional image path. -/
structure FacialRecord where
  expression : String
  facial_data : FaceObservation
  image_path : Option String
deriving Repr, DecidableEq

/-- facial_routes.py lines 346-369: the simulated observation substituted
by verify_facial when detection fails — a fresh random encoding, the
dominant emotion copied from the stored observation (dict.get default
happy), and a score map of 0.1 per label with the stored emotion then set
to 0.9. -/
def substituteProbe (stored_data : FaceObservation) (freshEncoding : List ℚ) :
    FaceObservation :=
  let stored_emotion := stored_data.dominantEmotion.getD "happy"
  { faceEncoding := freshEncoding
    dominantEmotion := some stored_emotion
    emotionScores := dictSet
      [("happy", 1/10), ("neutral", 1/10), ("sad", 1/10), ("angry", 1/10), ("surprised", 1/10)]
      stored_emotion (9/10) }

/-- The verify-facial route (facial_routes.py lines 301-447), for requests
that carry image data: 404 when no facial record exists; when probe
processing yields nothing, substitute the simulated observation and
proceed; otherwise compare and answer 200 with the outcome. -/
def verify_facial (compare : FaceObservation → FaceObservation → Bool × ℚ)
    (record? : Option FacialRecord) (probe? : Option FaceObservation)
    (freshEncoding : List ℚ) :
    Except RouteError VerifyResponse × Option FacialRecord :=
  match record? with
  | none => (.error .noFacialData, none)
  | some record =>
    let stored_data := record.facial_data
    let current_data :=
      match probe? with
      | some c => c
      | none => substituteProbe stored_data freshEncoding
    let r := compare stored_data current_data
    (.ok { matched := r.1, confidence := r.2,
           storedEmotion := stored_data.dominantEmotion,
           detectedEmotion := current_data.dominantEmotion }, some record)

/-- The login-verify route (facial_routes.py lines 449-581), for requests
that carry image data and a username: 404 when the user or the facial
record is missing; 400 when probe processing yields nothing — no
substitution; otherwise compare and answer 200 with the outcome. -/
def login_verify (compare : FaceObservation → FaceObservation → Bool × ℚ)
    (userExists : Bool) (record? : Option FacialRecord)
    (probe? : Option FaceObservation) :
    Except RouteError VerifyResponse × Option FacialRecord :=
  if userExists = false then (.error .userNotFound, record?)
  else
    match record? with
    | none => (.error .noFacialData, none)
    | some record =>
      match probe? with
      | none => (.error .couldNotDetectFace, some record)
      | some current_data =>
        let stored_data := record.facial_data
        let r := compare stored_data current_data
        (.ok { matched := r.1, confidence := r.2,
               storedEmotion := stored_data.dominantEmotion,
               detectedEmotion := current_data.dominantEmotion }, some record)

/-- Claim C3: when probe extraction reports no detection, verify_facial
does not reject: it substitutes a simulated observation whose dominant
expression equals the stored observation's dominant expression and
returns the outcome of the normal comparison on it. -/
theorem verify_substitutes_on_detection_failure
    (compare : FaceObservation → FaceObservation → Bool × ℚ)
    (record : FacialRecord) (freshEncoding : List ℚ) (e : String)
    (hstored : record.facial_data.dominantEmotion = some e) :
    (substituteProbe record.facial_data freshEncoding).dominantEmotion = some e ∧
    verify_facial compare (some record) none freshEncoding =
      (.ok { matched := (compare record.facial_data
               (substituteProbe record.facial_data freshEncoding)).1,
             confidence := (compare record.facial_data
               (substituteProbe record.facial_data freshEncoding)).2,
             storedEmotion := some e,
             detectedEmotion := some e },
       some record) := by
  have hsub : (substituteProbe record.facial_data freshEncoding).dominantEmotion = some e := by
    simp [substituteProbe, hstored]
  refine ⟨hsub, ?_⟩
  unfold verify_facial
  simp [hstored, hsub]

/-- Concrete record used by the route witnesses. -/
def recHappy : FacialRecord := ⟨"happy", obsHappyOne, none⟩

/-- Witness for C3: with the simulated comparison as the decision engine,
a detection failure against the happy enrollment still verifies — the
substituted observation copies the stored happy label, identical
encodings give similarity 1, and the blended confidence is 1. -/
theorem verify_substitutes_witness :
    recHappy.facial_data.dominantEmotion = some "happy" ∧
    verify_facial (fun s c => compare_facial_expressions_sim {} s c none)
      (some recHappy) none [1] =
      (.ok ⟨true, 1, some "happy", some "happy"⟩, some recHappy) := by
  refine ⟨rfl, ?_⟩
  have h := (verify_substitutes_on_detection_failure
    (fun s c => compare_facial_expressions_sim {} s c none) recHappy [1] "happy" rfl).2
  rw [h]
  norm_num [compare_facial_expressions_sim, faceSimilaritySim, l1Sum,
    substituteProbe, dictSet, recHappy, obsHappyOne]

/-- Claim C10: the login-time route fails closed on detection failure —
for every comparison function the result is the 400 error response, with
the record untouched (so no comparison is run and nothing substituted),
while verify_facial on the same inputs still answers 200. -/
theorem login_verify_fails_closed
    (compare : FaceObservation → FaceObservation → Bool × ℚ)
    (record : FacialRecord) (freshEncoding : List ℚ) :
    login_verify compare true (some record) none =
      (.error .couldNotDetectFace, some record) ∧
    ∃ response, (verify_facial compare (some record) none freshEncoding).1 = .ok response := by
  exact ⟨rfl, ⟨_, rfl⟩⟩

/-! Simulated feature extraction (face_processing.py lines 141-196).  The
source derives an MD5 digest of the input bytes, seeds the pseudo-random
generator with the first four digest bytes, draws 128 uniform values for
the encoding, picks the dominant emotion by reducing digest bytes 4..8
modulo the emotion list, and builds the score map.  MD5 and the Mersenne
Twister are pure functions of their inputs; we abstract them as
parameters (a digest function and a seedable generator) and embed
everything downstream of them from the source. -/

/-- int.from_bytes(bs, byteorder=big). -/
def bytesToNatBE : List ℕ → ℕ
  | [] => 0
  | b :: bs => b * 256 ^ bs.length + bytesToNatBE bs

/-- The emotion list of the simulated extractor
(face_processing.py line 176). -/
def simulatedEmotions : List String := ["happy", "neutral", "sad", "surprised", "angry"]

/-- A deterministic seedable pseudo-random generator: seed builds a state
from an integer, next draws one value and advances the state.  This stands
for random.seed followed by repeated random.uniform(-0.5, 0.5) calls. -/
structure Prng (σ : Type) where
  seed : ℕ → σ
  next : σ → ℚ × σ

/-- n successive draws from the generator, as the list comprehension
[random.uniform(-0.5, 0.5) for _ in range(128)] performs them. -/
def drawList {σ : Type} (g : Prng σ) : ℕ → σ → List ℚ
  | 0, _ => []
  | n + 1, s => (g.next s).1 :: drawList g n (g.next s).2

/-- extract_facial_features, simulated branch for byte or string input
(face_processing.py lines 145-196), over an abstract digest function and
generator. -/
def extract_facial_features_sim {σ : Type} (md5 : List ℕ → List ℕ) (g : Prng σ)
    (image_data : List ℕ) : FaceObservation :=
  let hash_bytes := md5 image_data
  let seedValue := bytesToNatBE (hash_bytes.take 4)
  let face_encoding := drawList g 128 (g.seed seedValue)
  let emotion_index := bytesToNatBE ((hash_bytes.drop 4).take 4) % simulatedEmotions.length
  let dominant_emotion := simulatedEmotions.getD emotion_index "happy"
  let emotion_scores := dictSet (simulatedEmotions.map fun e => (e, (1:ℚ)/10))
    dominant_emotion (9/10)
  { faceEncoding := face_encoding
    dominantEmotion := some dominant_emotion
    emotionScores := emotion_scores }

theorem drawList_length {σ : Type} (g : Prng σ) (n : ℕ) (s : σ) :
    (drawList g n s).length = n := by
  induction n generalizing s with
  | zero => rfl
  | succ n ih => simp [drawList, ih]

theorem simulatedEmotions_getD_mem (n : ℕ) :
    simulatedEmotions.getD (n % simulatedEmotions.length) "happy" ∈ simulatedEmotions := by
  set k := n % simulatedEmotions.length with hk
  have h5 : k < 5 := by
    rw [hk]; exact Nat.mod_lt _ (by norm_num [simulatedEmotions])
  interval_cases k <;> simp [simulatedEmotions]

theorem simulated_scores_profile (d : String) (hd : d ∈ simulatedEmotions) :
    (List.lookup d (dictSet (simulatedEmotions.map fun e => (e, (1:ℚ)/10)) d (9/10))
        = some (9/10)) ∧
    (∀ p ∈ dictSet (simulatedEmotions.map fun e => (e, (1:ℚ)/10)) d (9/10),
        p.1 ≠ d → p.2 = 1/10) ∧
    (∀ p ∈ dictSet (simulatedEmotions.map fun e => (e, (1:ℚ)/10)) d (9/10),
        p.2 ≤ 9/10) := by
  fin_cases hd <;>
    refine ⟨by simp [dictSet, simulatedEmotions, List.lookup], ?_, ?_⟩ <;>
    · intro p hp
      simp [dictSet, simulatedEmotions] at hp
      rcases hp with rfl | rfl | rfl | rfl | rfl <;> norm_num

/-- Claim C6: simulated extraction is deterministic in its input — equal
inputs give element-wise identical encodings and the same dominant label —
the encoding has 128 elements, and the score map gives the dominant label
0.9, every other label the equal residual 0.1, and the dominant label a
maximal score. -/
theorem simulated_extraction_deterministic {σ : Type} (md5 : List ℕ → List ℕ) (g : Prng σ)
    (input₁ input₂ : List ℕ) (h : input₁ = input₂) :
    (extract_facial_features_sim md5 g input₁).faceEncoding =
      (extract_facial_features_sim md5 g input₂).faceEncoding ∧
    (extract_facial_features_sim md5 g input₁).dominantEmotion =
      (extract_facial_features_sim md5 g input₂).dominantEmotion ∧
    (extract_facial_features_sim md5 g input₁).faceEncoding.length = 128 ∧
    ∃ d, (extract_facial_features_sim md5 g input₁).dominantEmotion = some d ∧
      (extract_facial_features_sim md5 g input₁).emotionScores.lookup d = some (9/10) ∧
      (∀ p ∈ (extract_facial_features_sim md5 g input₁).emotionScores,
        p.1 ≠ d → p.2 = 1/10) ∧
      (∀ p ∈ (extract_facial_features_sim md5 g input₁).emotionScores, p.2 ≤ 9/10) := by
  subst h
  refine ⟨rfl, rfl, drawList_length g 128 _, ?_⟩
  refine ⟨simulatedEmotions.getD
    (bytesToNatBE (((md5 input₁).drop 4).take 4) % simulatedEmotions.length) "happy",
    rfl, ?_, ?_, ?_⟩ <;>
  · have hmem := simulatedEmotions_getD_mem (bytesToNatBE (((md5 input₁).drop 4).take 4))
    have hprof := simulated_scores_profile _ hmem
    first
      | exact hprof.1
      | exact hprof.2.1
      | exact hprof.2.2

/-- A constant digest function and a counting generator, concrete
instances for the witness below. -/
def constMd5 : List ℕ → List ℕ := fun _ => List.replicate 16 0

def countPrng : Prng ℕ := ⟨fun n => n, fun s => (0, s + 1)⟩

/-- Witness for C6 at input [0] with concrete digest and generator
parameters. -/
theorem simulated_extraction_deterministic_witness :
    ([0] : List ℕ) = [0] ∧
    (extract_facial_features_sim constMd5 countPrng [0]).faceEncoding.length = 128 ∧
    (extract_facial_features_sim constMd5 countPrng [0]).dominantEmotion = some "happy" := by
  have h := simulated_extraction_deterministic constMd5 countPrng [0] [0] rfl
  refine ⟨rfl, h.2.2.1, ?_⟩
  rfl

/-! Claim C4 concerns the similarity formula of the pure-embedding path.
The spec prescribes rescaled cosine similarity; the source
(face_processing.py lines 377-386) computes an L1-based score instead.
specCosineSimilarityRescaled below is modelled from the words of the spec
for the comparison; faceSimilaritySim above is the code. -/

/-- Dot product of two rational vectors over their common prefix. -/
def dotQ : List ℚ → List ℚ → ℚ
  | a :: as, b :: bs => a * b + dotQ as bs
  | _, _ => 0

/-- Modelled from the spec: cosine similarity between the embeddings,
rescaled from [-1,1] to [0,1] via (cos+1)/2. -/
noncomputable def specCosineSimilarityRescaled (a b : List ℚ) : ℝ :=
  (((dotQ a b : ℚ) : ℝ) /
    (Real.sqrt ((dotQ a a : ℚ) : ℝ) * Real.sqrt ((dotQ b b : ℚ) : ℝ)) + 1) / 2

/-- Counterexample to C4: on the embeddings [1] and [-1] the rescaled
cosine is 0, while the similarity the engine computes is 63/64. -/
theorem similarity_is_not_rescaled_cosine :
    specCosineSimilarityRescaled [1] [-1] = 0 ∧
    faceSimilaritySim [1] [-1] = 63/64 ∧
    ((faceSimilaritySim [1] [-1] : ℚ) : ℝ) ≠ specCosineSimilarityRescaled [1] [-1] := by
  have h1 : specCosineSimilarityRescaled [1] [-1] = 0 := by
    unfold specCosineSimilarityRescaled
    norm_num [dotQ, Real.sqrt_one]
  have h2 : faceSimilaritySim [1] [-1] = 63/64 := by
    norm_num [faceSimilaritySim, l1Sum]
  refine ⟨h1, h2, ?_⟩
  rw [h1, h2]
  norm_num

/-- Claim C4 as amended: in the pure-embedding path the similarity entering
the blend is the L1-based score max(0, 1 - (sum of coordinate-wise absolute
differences over the common prefix)/128), not the rescaled cosine. -/
theorem similarity_is_l1_based
    (cfg : AppConfig) (stored_data current_data : FaceObservation) (threshold? : Option ℚ)
    (hs : stored_data.faceEncoding ≠ []) (hc : current_data.faceEncoding ≠ []) :
    (compare_facial_expressions_sim cfg stored_data current_data threshold?).2 =
      (1 - cfg.facialEmotionWeight) *
        max 0 (1 - l1Sum stored_data.faceEncoding current_data.faceEncoding / 128) +
      cfg.facialEmotionWeight * expressionScore stored_data current_data := by
  unfold compare_facial_expressions_sim
  rw [if_neg (by simp [hs, hc])]
  simp [faceSimilaritySim, expressionScore]

/-- Witness for the amended C4: happy [1] against sad [1] gives zero L1
distance, similarity 1, expression score 0 and confidence 7/10. -/
theorem similarity_is_l1_based_witness :
    obsHappyOne.faceEncoding ≠ [] ∧ obsSadOne.faceEncoding ≠ [] ∧
    (compare_facial_expressions_sim {} obsHappyOne obsSadOne none).2 = 7/10 := by
  refine ⟨by simp [obsHappyOne], by simp [obsSadOne], ?_⟩
  have h := similarity_is_l1_based {} obsHappyOne obsSadOne none
    (by simp [obsHappyOne]) (by simp [obsSadOne])
  rw [h]
  have he : expressionScore obsHappyOne obsSadOne = 0 := rfl
  rw [he]
  norm_num [l1Sum, obsHappyOne, obsSadOne]

/-! Directory matching (find_matches_in_directory, DeepFace branch,
face_processing.py lines 423-472).  The scan result of DeepFace.find is an
input: a list of (identity, cosine distance) rows in the order the scan
reports them.  The loop converts each distance to a similarity, keeps rows
at or above the threshold, and appends matches in row order — it performs
no sorting of its own. -/

/-- An entry of the returned matches list. -/
structure DirMatch where
  identity : String
  confidence : ℚ
deriving Repr, DecidableEq

/-- find_matches_in_directory, DeepFace branch, lines 456-468. -/
def find_matches_in_directory_df (rows : List (String × ℚ)) (similarity_threshold : ℚ) :
    List DirMatch :=
  rows.foldl (fun ms row =>
    if 1 - row.2 ≥ similarity_threshold then
      ms ++ [{ identity := row.1, confidence := 1 - row.2 }]
    else ms) []

/-- The per-row keep-or-drop decision of the loop body. -/
def keepRow (similarity_threshold : ℚ) (row : String × ℚ) : Option DirMatch :=
  if 1 - row.2 ≥ similarity_threshold then
    some { identity := row.1, confidence := 1 - row.2 }
  else none

theorem find_matches_foldl (similarity_threshold : ℚ) (rows : List (String × ℚ))
    (acc : List DirMatch) :
    rows.foldl (fun ms row =>
      if 1 - row.2 ≥ similarity_threshold then
        ms ++ [{ identity := row.1, confidence := 1 - row.2 }]
      else ms) acc = acc ++ rows.filterMap (keepRow similarity_threshold) := by
  induction rows generalizing acc with
  | nil => simp
  | cons r rs ih =>
    by_cases h : 1 - r.2 ≥ similarity_threshold
    · simp [keepRow, h, ih]
    · simp [keepRow, h, ih]

/-- Counterexample to C9: a scan reporting the rows (a, distance 3/10) then
(b, distance 1/10) produces matches with confidences 7/10 then 9/10 — both
kept correctly, but the list is not in descending confidence order. -/
theorem find_matches_order_counterexample :
    find_matches_in_directory_df [("a", 3/10), ("b", 1/10)] (6/10) =
      [⟨"a", 7/10⟩, ⟨"b", 9/10⟩] ∧
    ¬ List.Pairwise (fun x y : DirMatch => y.confidence ≤ x.confidence)
        (find_matches_in_directory_df [("a", 3/10), ("b", 1/10)] (6/10)) := by
  have heval : find_matches_in_directory_df [("a", 3/10), ("b", 1/10)] (6/10) =
      [⟨"a", 7/10⟩, ⟨"b", 9/10⟩] := by
    norm_num [find_matches_in_directory_df]
  refine ⟨heval, ?_⟩
  rw [heval]
  intro hp
  have h := (List.pairwise_cons.mp hp).1 ⟨"b", 9/10⟩ (by simp)
  norm_num at h

/-- Claim C9 as amended: the DeepFace path of findMatches keeps exactly the
scan rows whose similarity 1 - distance is at or above the threshold, in
scan order; the result is in descending confidence order whenever the scan
reports its rows in nondecreasing distance order. -/
theorem find_matches_filter_exact_and_conditional_order
    (rows : List (String × ℚ)) (similarity_threshold : ℚ) :
    find_matches_in_directory_df rows similarity_threshold =
      rows.filterMap (keepRow similarity_threshold) ∧
    (List.Pairwise (fun r s : String × ℚ => r.2 ≤ s.2) rows →
      List.Pairwise (fun x y : DirMatch => y.confidence ≤ x.confidence)
        (find_matches_in_directory_df rows similarity_threshold)) := by
  have heq : find_matches_in_directory_df rows similarity_threshold =
      rows.filterMap (keepRow similarity_threshold) := by
    unfold find_matches_in_directory_df
    simpa using find_matches_foldl similarity_threshold rows []
  refine ⟨heq, fun hsorted => ?_⟩
  rw [heq, List.pairwise_filterMap]
  refine hsorted.imp ?_
  intro r s hrs x hx y hy
  unfold keepRow at hx hy
  by_cases h1 : 1 - r.2 ≥ similarity_threshold
  · rw [if_pos h1] at hx
    by_cases h2 : 1 - s.2 ≥ similarity_threshold
    · rw [if_pos h2] at hy
      simp only [Option.mem_some_iff] at hx hy
      subst hx; subst hy
      simpa using by linarith
    · rw [if_neg h2] at hy
      simp at hy
  · rw [if_neg h1] at hx
    simp at hx

/-- Witness for the amended C9: rows sorted by ascending distance with one
row below the threshold give the single kept match list and a descending
result; applying the theorem discharges the ordering hypothesis. -/
theorem find_matches_filter_witness :
    List.Pairwise (fun r s : String × ℚ => r.2 ≤ s.2)
      [("b", (1:ℚ)/10), ("a", 3/10), ("c", 1/2)] ∧
    find_matches_in_directory_df [("b", 1/10), ("a", 3/10), ("c", 1/2)] (6/10) =
      [⟨"b", 9/10⟩, ⟨"a", 7/10⟩] ∧
    List.Pairwise (fun x y : DirMatch => y.confidence ≤ x.confidence)
      (find_matches_in_directory_df [("b", 1/10), ("a", 3/10), ("c", 1/2)] (6/10)) := by
  have hs : List.Pairwise (fun r s : String × ℚ => r.2 ≤ s.2)
      [("b", (1:ℚ)/10), ("a", 3/10), ("c", 1/2)] := by
    refine List.pairwise_cons.mpr ⟨?_, List.pairwise_cons.mpr ⟨?_, List.pairwise_singleton _ _⟩⟩
    · intro s hsmem
      rcases List.mem_cons.mp hsmem with rfl | hsmem
      · norm_num
      · rcases List.mem_singleton.mp hsmem with rfl
        norm_num
    · intro s hsmem
      rcases List.mem_singleton.mp hsmem with rfl
      norm_num
  refine ⟨hs, ?_, (find_matches_filter_exact_and_conditional_order _ _).2 hs⟩
  norm_num [find_matches_in_directory_df]

end FacialAuth
